import Mathlib

/-!
Verification of `newsletter_generator.py` (llm-newsletter-generator).

The program is a linear pipeline: fetch articles from the News API
(consulting an on-disk response cache first), summarize each article
through the OpenAI chat-completion API, render a styled HTML newsletter,
optionally save it to a file and/or send it over SMTP.

Shallow embedding conventions:
* External effects (filesystem, HTTP, OpenAI, SMTP) are oracles packaged
  in environment structures; each run consumes one environment.
* A Python value that may be a JSON string, JSON null, or an absent
  dictionary key is `Option (Option String)`: `none` = key absent,
  `some none` = key present with null, `some (some s)` = string `s`.
* An uncaught Python exception propagating out of a function is
  `Except.error`, carrying the exception description.
* Observable side effects of a run are recorded in an `Eff` trace.
-/

/-- One article object as delivered by the News API.  `title` and `url`
are indexed directly by the source (`article['title']`, `article['url']`)
and are modeled as always present; `content` and `description` are read
with `dict.get` and may be absent or null. -/
structure Article where
  title : String
  url : String
  content : Option (Option String)
  description : Option (Option String)
deriving DecidableEq

/-- Python truthiness of a `str`-or-`None` value: `None` and the empty
string are falsy. -/
def pyTruthy : Option String → Bool
  | none => false
  | some s => s != ""

/-- Python `f"...{x}..."` rendering of a `str`-or-`None` value: `None`
prints as the four characters `None`. -/
def pyFStr : Option String → String
  | none => "None"
  | some s => s

/-- Observable side effects of a run. -/
inductive Eff where
  | printMsg (s : String)
  | netGet (url : String)
  | cacheWrite (file : String) (articles : List Article)
  | fileWrite (path : String) (content : String)
  | smtpOpen (server : String) (port : Nat)
  | printRuntime
deriving DecidableEq

/-- The final HTTP response seen by `requests.get` (after any redirect
handling inside the library).  `json` models `response.json()` followed by
the `['articles']` lookup: `.error` = body is not valid JSON
(`requests.exceptions.JSONDecodeError`, a `RequestException`),
`.ok none` = valid JSON without an `articles` member (so
`data['articles']` raises `KeyError`), `.ok (some l)` = articles list. -/
structure HttpResponse where
  status : Nat
  json : Except String (Option (List Article))

/-- Environment for one `fetch_articles` call: wall clock, cache-file
state (`os.path.exists`, `os.path.getmtime`, `open`+`json.load`), the
HTTP oracle (`.error` = transport-level `RequestException`), and whether
the cache write raises an I/O error (`some e`) or succeeds (`none`). -/
structure FetchEnv where
  now : Int
  cacheExists : String → Bool
  cacheMtime : String → Int
  cacheRead : String → Except String (List Article)
  httpGet : String → Except String HttpResponse
  cacheWriteErr : String → Option String

/-- The News API URL built by `fetch_articles`. -/
def fetchUrl (newsApiKey topic : String) (maxArticles : Nat) : String :=
  "https://newsapi.org/v2/everything?q=" ++ topic ++ "&apiKey=" ++ newsApiKey
    ++ "&pageSize=" ++ toString maxArticles ++ "&language=en"

/-- `hashlib.md5(url.encode()).hexdigest()`.  Modeled as the identity
fingerprint: every claim depends only on the key being a deterministic
function of the URL, never on the digest's value. -/
def md5hex (s : String) : String := s

/-- The cache file path derived from the request URL. -/
def cacheFileName (url : String) : String :=
  "./cache/" ++ md5hex url ++ ".json"

/-- Cache file for a given request triple (key, topic, max count). -/
def cacheFileFor (newsApiKey topic : String) (maxArticles : Nat) : String :=
  cacheFileName (fetchUrl newsApiKey topic maxArticles)

/-- `response.raise_for_status()` raises `HTTPError` (a
`RequestException`) exactly for 4xx and 5xx status codes. -/
def raiseForStatus (r : HttpResponse) : Bool :=
  decide (400 ≤ r.status) && decide (r.status < 600)

/-- `NewsletterGenerator.fetch_articles`.  Returns the Python return
value (`.ok (some arts)` = article list, `.ok none` = `None`,
`.error e` = uncaught exception) paired with the effect trace.
The cache read (`print`, `open`, `json.load`) sits outside the `try`
block, so a read error propagates; inside the `try`, only
`requests.exceptions.RequestException` is caught, so a `KeyError` on
`data['articles']` or an I/O error on the cache write also propagates. -/
def fetch_articles (env : FetchEnv) (newsApiKey : String) (cacheTimeout : Int)
    (topic : String) (maxArticles : Nat) :
    Except String (Option (List Article)) × List Eff :=
  let url := fetchUrl newsApiKey topic maxArticles
  let cacheFile := cacheFileName url
  if env.cacheExists cacheFile = true ∧
      env.now - env.cacheMtime cacheFile < cacheTimeout then
    match env.cacheRead cacheFile with
    | .error e => (.error e, [.printMsg "Using cached articles."])
    | .ok arts => (.ok (some arts), [.printMsg "Using cached articles."])
  else
    match env.httpGet url with
    | .error _e => (.ok none, [.netGet url])
    | .ok resp =>
      if raiseForStatus resp then (.ok none, [.netGet url])
      else
        match resp.json with
        | .error _e => (.ok none, [.netGet url])
        | .ok none => (.error "KeyError: articles", [.netGet url])
        | .ok (some arts) =>
          match env.cacheWriteErr cacheFile with
          | some e => (.error e, [.netGet url])
          | none => (.ok (some arts), [.netGet url, .cacheWrite cacheFile arts])

/-- Python `str.strip()`: drop leading and trailing whitespace. -/
def pyStrip (s : String) : String :=
  ⟨((s.data.dropWhile Char.isWhitespace).reverse.dropWhile Char.isWhitespace).reverse⟩

/-- The user prompt submitted to the chat-completion call (the model
name, the system instruction and the 150-token bound are constants of
the call and carry no claim-relevant data). -/
def summarizePrompt (article_content : Option String) : String :=
  "Please summarize the following article in a concise, email-friendly format:\n\n"
    ++ pyFStr article_content

/-- `NewsletterGenerator.summarize_article`.  `oracle` models the
chat-completion call together with the `response.choices[0].message['content']`
extraction: `.error` is any raised `Exception`.  Returns the summary
string paired with the list of prompts actually submitted.  The whole
call chain sits inside `try`, and the handler catches every `Exception`,
replacing the result with the fixed placeholder; no retry occurs. -/
def summarize_article (oracle : String → Except String String)
    (article_content : Option String) : String × List String :=
  match oracle (summarizePrompt article_content) with
  | .ok s => (pyStrip s, [summarizePrompt article_content])
  | .error _e => ("Summary could not be generated.", [summarizePrompt article_content])

/-- `article.get('content') or article.get('description', '')` from the
render loop: the text handed to `summarize_article` for one article. -/
def contentToSummarize (a : Article) : Option String :=
  let c := a.content.join
  if pyTruthy c then c else a.description.getD (some "")

/-- Head of the HTML document built by `create_newsletter_content`
(embedded CSS, container opening, title heading, topic paragraph),
exactly the first f-string of the source. -/
def htmlHeader (title topic : String) : String :=
  "\n        <html>\n        <head>\n            <style>\n"
    ++ "                body \x7b\n                    font-family: Arial, sans-serif;\n                    line-height: 1.6;\n                    color: #333;\n                \x7d\n"
    ++ "                .container \x7b\n                    max-width: 600px;\n                    margin: 0 auto;\n                    padding: 20px;\n                \x7d\n"
    ++ "                h1 \x7b\n                    color: #2c3e50;\n                    text-align: center;\n                \x7d\n"
    ++ "                h2 \x7b\n                    color: #3498db;\n                    border-bottom: 2px solid #ecf0f1;\n                    padding-bottom: 10px;\n                \x7d\n"
    ++ "                .article \x7b\n                    margin-bottom: 25px;\n                \x7d\n"
    ++ "                .summary-header \x7b\n                    font-weight: bold;\n                    color: #7f8c8d;\n                    margin-bottom: 5px;\n                \x7d\n"
    ++ "                .footer \x7b\n                    text-align: center;\n                    margin-top: 30px;\n                    font-size: 0.9em;\n                    color: #95a5a6;\n                \x7d\n"
    ++ "                a \x7b\n                    color: #3498db;\n                    text-decoration: none;\n                \x7d\n"
    ++ "                a:hover \x7b\n                    text-decoration: underline;\n                \x7d\n"
    ++ "            </style>\n        </head>\n        <body>\n            <div class=\"container\">\n"
    ++ "                <h1>" ++ title ++ "</h1>\n"
    ++ "                <p>Here is your daily update on <strong>" ++ topic ++ "</strong>:</p>\n        "

/-- One per-article block, exactly the f-string appended by the loop
body of `create_newsletter_content`. -/
def articleBlock (a : Article) (summary : String) : String :=
  "\n                <div class=\"article\">\n"
    ++ "                    <h2>" ++ a.title ++ "</h2>\n"
    ++ "                    <p class=\"summary-header\">Summary</p>\n"
    ++ "                    <p>" ++ summary ++ "</p>\n"
    ++ "                    <a href=\"" ++ a.url ++ "\" target=\"_blank\">Read Full Article</a>\n"
    ++ "                </div>\n                "

/-- Closing footer appended after the loop, exactly the last string of
`create_newsletter_content`. -/
def htmlFooter : String :=
  "\n                <div class=\"footer\">\n"
    ++ "                    <p>This newsletter was generated automatically. We hope you enjoyed this update!</p>\n"
    ++ "                </div>\n            </div>\n        </body>\n        </html>\n        "

/-- `NewsletterGenerator.create_newsletter_content`.  The progress bar
updates have no effect on data or control flow and are omitted.  The
summary of each article is computed inside the loop by
`summarize_article` on the content-or-description fallback text. -/
def create_newsletter_content (oracle : String → Except String String)
    (title topic : String) (articles : List Article) : String :=
  if articles.isEmpty then "No articles found for the newsletter."
  else
    (articles.foldl
      (fun acc a =>
        acc ++ articleBlock a (summarize_article oracle (contentToSummarize a)).1)
      (htmlHeader title topic)) ++ htmlFooter

/-- `NewsletterGenerator.send_email`: builds the MIME message, opens one
SMTP session, STARTTLS, login, send, close.  `smtpOk = false` models an
`smtplib.SMTPException` somewhere in the session; it is caught and only
logged, so the effect trace is the observable outcome. -/
def send_email (smtpOk : Bool) (_subject _body _sender : String)
    (recipient server : String) (port : Nat) (_user _password : String) : List Eff :=
  if smtpOk then
    [.smtpOpen server port,
     .printMsg ("Newsletter sent successfully to " ++ recipient)]
  else
    [.smtpOpen server port]

/-- Parsed command-line arguments.  `argparse` leaves optional string
arguments at `None` when omitted; `smtpPort` defaults to 587 and
`maxArticles` to 5 at the parser. -/
structure Args where
  title : String
  topic : String
  maxArticles : Nat
  newsApiKey : String
  openaiApiKey : String
  sendEmail : Bool
  recipientEmail : Option String
  senderEmail : Option String
  smtpServer : Option String
  smtpPort : Nat
  smtpUser : Option String
  smtpPassword : Option String
  outputFile : Option String

/-- `all([recipient, sender, server, user, password])` from `main`
(`smtp_port` has a default and is not checked). -/
def allEmailArgs (args : Args) : Bool :=
  pyTruthy args.recipientEmail && pyTruthy args.senderEmail
    && pyTruthy args.smtpServer && pyTruthy args.smtpUser
    && pyTruthy args.smtpPassword

/-- Effects of the output-file branch of `main`. -/
def outputEffs (args : Args) (html : String) : List Eff :=
  if pyTruthy args.outputFile then
    [.fileWrite (args.outputFile.getD "") html,
     .printMsg ("Newsletter saved to " ++ args.outputFile.getD "")]
  else
    [.printMsg "Newsletter content generated successfully. Use -o to save to a file or --send-email to send."]

/-- Effects of the email branch of `main`. -/
def emailEffs (smtpOk : Bool) (args : Args) (html : String) : List Eff :=
  if args.sendEmail then
    if allEmailArgs args then
      send_email smtpOk args.title html (args.senderEmail.getD "")
        (args.recipientEmail.getD "") (args.smtpServer.getD "") args.smtpPort
        (args.smtpUser.getD "") (args.smtpPassword.getD "")
    else [.printMsg "To send an email, you must provide all required email arguments."]
  else []

/-- The operator message printed when `articles` is falsy. -/
def failEff : Eff :=
  .printMsg "Failed to generate newsletter because no articles could be fetched."

/-- The source's `main` after argument parsing and cache-directory
bootstrap (the name `main` is reserved by Lean for entry points): the
generator is constructed with the default `cache_timeout` of 3600;
`if articles:` sends both `None` and the empty list to the failure
branch.  Result: `.error e` when an uncaught exception aborts the run,
otherwise the full effect trace. -/
def mainRun (env : FetchEnv) (oracle : String → Except String String)
    (smtpOk : Bool) (args : Args) : Except String (List Eff) :=
  match fetch_articles env args.newsApiKey 3600 args.topic args.maxArticles with
  | (.error e, _) => .error e
  | (.ok none, tr) => .ok (tr ++ [failEff, .printRuntime])
  | (.ok (some arts), tr) =>
    if arts.isEmpty then .ok (tr ++ [failEff, .printRuntime])
    else
      let html := create_newsletter_content oracle args.title args.topic arts
      .ok (tr ++ outputEffs args html ++ emailEffs smtpOk args html ++ [.printRuntime])

/-- Number of (possibly overlapping) occurrences of `needle` in a
character list. -/
def countOcc (needle : List Char) : List Char → Nat
  | [] => 0
  | c :: rest =>
    (if needle.isPrefixOf (c :: rest) then 1 else 0) + countOcc needle rest

/-- Number of occurrences of `needle` as a substring of `s`. -/
def countSubstr (needle s : String) : Nat :=
  countOcc needle.data s.data

/-- Concatenation of one rendered block per article, in list order. -/
def blocksConcat (f : Article → String) : List Article → String
  | [] => ""
  | a :: rest => f a ++ blocksConcat f rest

/-! ### Concrete fixtures used by witnesses and counterexamples -/

/-- Summarization oracle that always answers with the summary `S`. -/
def oracleK : String → Except String String := fun _ => .ok "S"

/-- Article with non-empty content and a description. -/
def artA : Article := ⟨"A", "http://a", some (some "ca"), some (some "da")⟩

/-- Article with the `content` key absent and a string description. -/
def artB : Article := ⟨"B", "http://b", none, some (some "db")⟩

/-- Article with `content` absent and `description` present but null —
the JSON shape `"description": null` delivered by the News API. -/
def artNull : Article := ⟨"N", "http://n", none, some none⟩

/-- Environment with a fresh cache entry holding `arts` (age 50 s); the
network would fail if it were consulted. -/
def envHit (arts : List Article) : FetchEnv :=
  { now := 100, cacheExists := fun _ => true, cacheMtime := fun _ => 50,
    cacheRead := fun _ => .ok arts, httpGet := fun _ => .error "ConnectionError",
    cacheWriteErr := fun _ => none }

/-- Cache miss; the request comes back with terminal status 301 (not
followed, e.g. no usable Location header) and a well-formed body. -/
def envMiss301 : FetchEnv :=
  { now := 100, cacheExists := fun _ => false, cacheMtime := fun _ => 0,
    cacheRead := fun _ => .error "unused", httpGet := fun _ => .ok ⟨301, .ok (some [artA])⟩,
    cacheWriteErr := fun _ => none }

/-- Cache miss; the outbound request fails at the transport level. -/
def envMissNetErr : FetchEnv :=
  { now := 100, cacheExists := fun _ => false, cacheMtime := fun _ => 0,
    cacheRead := fun _ => .error "unused", httpGet := fun _ => .error "ConnectionError",
    cacheWriteErr := fun _ => none }

/-- Fresh cache entry whose backing file read raises an I/O error; the
network would succeed if it were consulted. -/
def envRdErr : FetchEnv :=
  { now := 100, cacheExists := fun _ => true, cacheMtime := fun _ => 50,
    cacheRead := fun _ => .error "IOError", httpGet := fun _ => .ok ⟨200, .ok (some [artA])⟩,
    cacheWriteErr := fun _ => none }

/-- Cache miss, successful fetch, but the cache write raises. -/
def envWrErr : FetchEnv :=
  { now := 100, cacheExists := fun _ => false, cacheMtime := fun _ => 0,
    cacheRead := fun _ => .error "unused", httpGet := fun _ => .ok ⟨200, .ok (some [artA])⟩,
    cacheWriteErr := fun _ => some "IOError" }

/-- Cache miss; the source answers 200 with an empty article list. -/
def envMissEmpty : FetchEnv :=
  { now := 100, cacheExists := fun _ => false, cacheMtime := fun _ => 0,
    cacheRead := fun _ => .error "unused", httpGet := fun _ => .ok ⟨200, .ok (some [])⟩,
    cacheWriteErr := fun _ => none }

/-- Minimal argument set: no email sending, no output file. -/
def argsBase : Args :=
  { title := "T", topic := "ai", maxArticles := 5, newsApiKey := "k",
    openaiApiKey := "okey", sendEmail := false, recipientEmail := none,
    senderEmail := none, smtpServer := none, smtpPort := 587,
    smtpUser := none, smtpPassword := none, outputFile := none }

/-- Email sending requested with every delivery field present except the
SMTP password. -/
def argsEmailNoPass : Args :=
  { title := "T", topic := "ai", maxArticles := 5, newsApiKey := "k",
    openaiApiKey := "okey", sendEmail := true,
    recipientEmail := some "r@x.com", senderEmail := some "s@x.com",
    smtpServer := some "smtp.x.com", smtpPort := 587,
    smtpUser := some "user", smtpPassword := none, outputFile := none }

set_option maxRecDepth 40000

/-! ### Helper lemmas -/

/-- Folding block-appends over a list equals the initial string followed
by the concatenation of the blocks. -/
lemma foldl_append_blocks (f : Article → String) :
    ∀ (arts : List Article) (init : String),
      arts.foldl (fun acc a => acc ++ f a) init = init ++ blocksConcat f arts := by
  intro arts
  induction arts with
  | nil => intro init; simp [blocksConcat]
  | cons a t ih => intro init; simp [List.foldl, blocksConcat, ih, String.append_assoc]

/-- `blocksConcat` only depends on the value of `f` on the list. -/
lemma blocksConcat_congr (f g : Article → String) :
    ∀ arts : List Article, (∀ a ∈ arts, f a = g a) →
      blocksConcat f arts = blocksConcat g arts := by
  intro arts
  induction arts with
  | nil => intro _; rfl
  | cons a t ih =>
    intro h
    simp only [blocksConcat]
    rw [h a (List.mem_cons_self a t), ih (fun b hb => h b (List.mem_cons_of_mem a hb))]

/-- No path of `fetch_articles` opens an SMTP session. -/
lemma fetch_trace_no_smtp (env : FetchEnv) (k : String) (t : Int) (topic : String)
    (m : Nat) (s : String) (p : Nat) :
    Eff.smtpOpen s p ∉ (fetch_articles env k t topic m).2 := by
  simp only [fetch_articles]
  repeat' split
  all_goals simp

/-! ### Claims -/

/-- C1: on a cache hit — the entry exists and its age `now - mtime` is
strictly below the configured time-to-live — `fetch_articles` returns
exactly the cached article list with no network request and no cache
write (its only effect is the cache-hit message); any second call that
still sees the same fresh entry returns the identical list; and whenever
the hit condition fails, the call performs a live network fetch. -/
theorem fetch_cache_hit_behavior
    (env env2 : FetchEnv) (newsApiKey topic : String) (cacheTimeout : Int)
    (maxArticles : Nat) (arts : List Article)
    (h1 : env.cacheExists (cacheFileFor newsApiKey topic maxArticles) = true)
    (h2 : env.now - env.cacheMtime (cacheFileFor newsApiKey topic maxArticles) < cacheTimeout)
    (h3 : env.cacheRead (cacheFileFor newsApiKey topic maxArticles) = .ok arts) :
    fetch_articles env newsApiKey cacheTimeout topic maxArticles =
      (.ok (some arts), [.printMsg "Using cached articles."]) ∧
    (env2.cacheExists (cacheFileFor newsApiKey topic maxArticles) = true →
      env2.now - env2.cacheMtime (cacheFileFor newsApiKey topic maxArticles) < cacheTimeout →
      env2.cacheRead (cacheFileFor newsApiKey topic maxArticles) = .ok arts →
      (fetch_articles env2 newsApiKey cacheTimeout topic maxArticles).1 =
        (fetch_articles env newsApiKey cacheTimeout topic maxArticles).1) ∧
    (¬(env2.cacheExists (cacheFileFor newsApiKey topic maxArticles) = true ∧
        env2.now - env2.cacheMtime (cacheFileFor newsApiKey topic maxArticles) < cacheTimeout) →
      (fetch_articles env2 newsApiKey cacheTimeout topic maxArticles).2.head? =
        some (.netGet (fetchUrl newsApiKey topic maxArticles))) := by
  simp only [cacheFileFor] at h1 h2 h3
  refine ⟨?_, ?_, ?_⟩
  · simp [fetch_articles, h1, h2, h3]
  · intro g1 g2 g3
    simp only [cacheFileFor] at g1 g2 g3
    simp [fetch_articles, h1, h2, h3, g1, g2, g3]
  · intro hmiss
    simp only [cacheFileFor] at hmiss
    simp only [fetch_articles]
    rw [if_neg hmiss]
    cases hg : env2.httpGet (fetchUrl newsApiKey topic maxArticles) with
    | error e => simp
    | ok resp =>
      by_cases hr : raiseForStatus resp
      · simp [hr]
      · simp only [hr]
        cases hj : resp.json with
        | error e => simp
        | ok o =>
          cases o with
          | none => simp
          | some arts2 =>
            cases hw : env2.cacheWriteErr (cacheFileName (fetchUrl newsApiKey topic maxArticles)) <;>
              simp [hw]

theorem fetch_cache_hit_behavior_witness :
    ((envHit [artA]).cacheExists (cacheFileFor "k" "ai" 5) = true ∧
      (envHit [artA]).now - (envHit [artA]).cacheMtime (cacheFileFor "k" "ai" 5) < (3600 : Int) ∧
      (envHit [artA]).cacheRead (cacheFileFor "k" "ai" 5) = .ok [artA]) ∧
    fetch_articles (envHit [artA]) "k" 3600 "ai" 5 =
      (.ok (some [artA]), [.printMsg "Using cached articles."]) :=
  ⟨⟨by rfl, by decide, by rfl⟩,
    (fetch_cache_hit_behavior (envHit [artA]) (envHit [artA]) "k" "ai" 3600 5 [artA]
      (by rfl) (by decide) (by rfl)).1⟩

/-- C2 counterexample: the claim says every non-2xx response yields a
failure, but `raise_for_status` raises only for 4xx/5xx.  A terminal
301 response with a well-formed body is a non-2xx status on which
`fetch_articles` returns the article list, the run proceeds, and the
failure message is never printed. -/
theorem fetch_non2xx_redirect_succeeds :
    envMiss301.httpGet (fetchUrl "k" "ai" 5) = .ok ⟨301, .ok (some [artA])⟩ ∧
    ¬(200 ≤ 301 ∧ 301 < 300) ∧
    fetch_articles envMiss301 "k" 3600 "ai" 5 =
      (.ok (some [artA]),
        [.netGet (fetchUrl "k" "ai" 5), .cacheWrite (cacheFileFor "k" "ai" 5) [artA]]) ∧
    mainRun envMiss301 oracleK true argsBase =
      .ok [.netGet (fetchUrl "k" "ai" 5), .cacheWrite (cacheFileFor "k" "ai" 5) [artA],
        .printMsg "Newsletter content generated successfully. Use -o to save to a file or --send-email to send.",
        .printRuntime] ∧
    failEff ∉ [Eff.netGet (fetchUrl "k" "ai" 5), .cacheWrite (cacheFileFor "k" "ai" 5) [artA],
        .printMsg "Newsletter content generated successfully. Use -o to save to a file or --send-email to send.",
        .printRuntime] :=
  ⟨by rfl, by decide, by rfl, by rfl, by decide⟩

/-- C2 (amended): on a cache miss, if the single outbound request raises
a transport error or returns a 4xx/5xx status (`raise_for_status`), then
`fetch_articles` returns `None` after exactly one network attempt, and
the run terminates with the "failed to generate" message: no newsletter
is rendered, no file is written, no mail session is opened. -/
theorem fetch_error_single_attempt_aborts_run
    (env : FetchEnv) (oracle : String → Except String String) (smtpOk : Bool)
    (args : Args) (r : Except String HttpResponse)
    (hmiss : ¬(env.cacheExists (cacheFileFor args.newsApiKey args.topic args.maxArticles) = true ∧
      env.now - env.cacheMtime (cacheFileFor args.newsApiKey args.topic args.maxArticles) < 3600))
    (hg : env.httpGet (fetchUrl args.newsApiKey args.topic args.maxArticles) = r)
    (herr : ∀ resp, r = .ok resp → raiseForStatus resp = true) :
    fetch_articles env args.newsApiKey 3600 args.topic args.maxArticles =
      (.ok none, [.netGet (fetchUrl args.newsApiKey args.topic args.maxArticles)]) ∧
    mainRun env oracle smtpOk args =
      .ok [.netGet (fetchUrl args.newsApiKey args.topic args.maxArticles), failEff,
        .printRuntime] := by
  simp only [cacheFileFor] at hmiss
  have hfetch : fetch_articles env args.newsApiKey 3600 args.topic args.maxArticles =
      (.ok none, [.netGet (fetchUrl args.newsApiKey args.topic args.maxArticles)]) := by
    simp only [fetch_articles]
    rw [if_neg hmiss, hg]
    cases r with
    | error e => rfl
    | ok resp => simp [herr resp rfl]
  exact ⟨hfetch, by simp [mainRun, hfetch]⟩

theorem fetch_error_single_attempt_aborts_run_witness :
    (¬(envMissNetErr.cacheExists (cacheFileFor "k" "ai" 5) = true ∧
      envMissNetErr.now - envMissNetErr.cacheMtime (cacheFileFor "k" "ai" 5) < 3600) ∧
      envMissNetErr.httpGet (fetchUrl "k" "ai" 5) = .error "ConnectionError") ∧
    mainRun envMissNetErr oracleK true argsBase =
      .ok [.netGet (fetchUrl "k" "ai" 5), failEff, .printRuntime] :=
  ⟨⟨by decide, by rfl⟩,
    (fetch_error_single_attempt_aborts_run envMissNetErr oracleK true argsBase
      (.error "ConnectionError") (by decide) (by rfl) (fun resp h => nomatch h)).2⟩

/-- C3: `summarize_article` is total: it submits exactly one prompt (no
retry), and whatever the external service does, it returns either the
stripped completion or exactly the placeholder "Summary could not be
generated." — any raised error is absorbed locally. -/
theorem summarize_total_single_attempt (oracle : String → Except String String)
    (c : Option String) :
    (summarize_article oracle c).2 = [summarizePrompt c] ∧
    (∀ e, oracle (summarizePrompt c) = .error e →
      (summarize_article oracle c).1 = "Summary could not be generated.") ∧
    (∀ s, oracle (summarizePrompt c) = .ok s →
      (summarize_article oracle c).1 = pyStrip s) := by
  unfold summarize_article
  cases h : oracle (summarizePrompt c) <;> simp [h]

theorem summarize_total_single_attempt_witness :
    (fun _ : String => (.error "APIError" : Except String String)) (summarizePrompt none)
        = .error "APIError" ∧
    (summarize_article (fun _ => .error "APIError") none).1 =
      "Summary could not be generated." :=
  ⟨rfl, (summarize_total_single_attempt (fun _ => .error "APIError") none).2.1 "APIError" rfl⟩

/-- C4 counterexample: for an article whose `content` key is absent and
whose `description` key is present with a null value, the text submitted
to the summarizer is Python `None`, not the empty string — the prompt
embeds the literal text `None`. -/
theorem content_fallback_null_description_not_empty :
    artNull.content = none ∧ artNull.description = some none ∧
    contentToSummarize artNull = none ∧ contentToSummarize artNull ≠ some "" ∧
    summarizePrompt (contentToSummarize artNull) =
      "Please summarize the following article in a concise, email-friendly format:\n\nNone" :=
  ⟨rfl, rfl, rfl, by decide, rfl⟩

/-- C4 (amended): the text submitted is the article's content when the
content is a non-empty string; otherwise it is the raw value of the
`description` key when that key is present (so a null description is
submitted as Python `None`); the empty string is submitted only when the
`description` key is missing. -/
theorem content_fallback_characterization (a : Article) :
    (∀ s, a.content = some (some s) → s ≠ "" → contentToSummarize a = some s) ∧
    (pyTruthy a.content.join = false →
      (a.description = none → contentToSummarize a = some "") ∧
      (∀ d, a.description = some d → contentToSummarize a = d)) := by
  constructor
  · intro s hc hs
    simp [contentToSummarize, hc, pyTruthy, hs]
  · intro hfalse
    have hgoal : contentToSummarize a = a.description.getD (some "") := by
      simp only [contentToSummarize]
      rw [hfalse]
      simp
    constructor
    · intro hd
      rw [hgoal, hd]
      rfl
    · intro d hd
      rw [hgoal, hd]
      rfl

theorem content_fallback_characterization_witness :
    (artA.content = some (some "ca") ∧ "ca" ≠ "" ∧ contentToSummarize artA = some "ca") ∧
    (pyTruthy artB.content.join = false ∧ artB.description = some (some "db") ∧
      contentToSummarize artB = some "db") :=
  ⟨⟨by rfl, by decide, (content_fallback_characterization artA).1 "ca" (by rfl) (by decide)⟩,
    ⟨by rfl, by rfl,
      ((content_fallback_characterization artB).2 (by rfl)).2 (some "db") (by rfl)⟩⟩

/-- C5: rendering an empty article list returns the fixed "no articles"
message for every title, topic and summarizer (the code has a single
HTML render mode, and the guard precedes all formatting). -/
theorem render_empty_list_message (oracle : String → Except String String)
    (title topic : String) :
    create_newsletter_content oracle title topic [] =
      "No articles found for the newsletter." := rfl

/-- C6 counterexample: with two articles the rendered document is the
header, the first article block, the second article block and the
footer, directly adjacent — there are zero separator elements between
the blocks (in particular no `<hr>` anywhere in any part), not n−1 = 1;
each block carries exactly one `article` container div. -/
theorem render_two_articles_no_separator :
    create_newsletter_content oracleK "T" "ai" [artA, artB] =
      htmlHeader "T" "ai" ++ (articleBlock artA "S" ++ (articleBlock artB "S" ++ htmlFooter)) ∧
    countSubstr "<div class=\"article\">" (articleBlock artA "S") = 1 ∧
    countSubstr "<div class=\"article\">" (articleBlock artB "S") = 1 ∧
    countSubstr "<div class=\"article\">" (htmlHeader "T" "ai") = 0 ∧
    countSubstr "<div class=\"article\">" htmlFooter = 0 ∧
    countSubstr "<hr" (htmlHeader "T" "ai") = 0 ∧
    countSubstr "<hr" (articleBlock artA "S") = 0 ∧
    countSubstr "<hr" (articleBlock artB "S") = 0 ∧
    countSubstr "<hr" htmlFooter = 0 :=
  ⟨by simp [create_newsletter_content, List.foldl, summarize_article, oracleK,
      String.append_assoc, show pyStrip "S" = "S" from by decide],
    by decide, by decide, by decide, by decide, by decide, by decide, by decide, by decide⟩

/-- C6 (amended): for every non-empty article list the HTML document is
the fixed header, then exactly one block per article in source order (no
re-sorting, no deduplication), then the fixed footer; consecutive blocks
are directly concatenated with no separator element between them. -/
theorem render_blocks_structure (oracle : String → Except String String)
    (title topic : String) (arts : List Article) (h : arts ≠ []) :
    create_newsletter_content oracle title topic arts =
      htmlHeader title topic ++
        (blocksConcat
          (fun a => articleBlock a (summarize_article oracle (contentToSummarize a)).1) arts
          ++ htmlFooter) := by
  unfold create_newsletter_content
  split
  · rename_i he
    exact absurd (List.isEmpty_iff.mp he) h
  · rw [foldl_append_blocks
      (fun a => articleBlock a (summarize_article oracle (contentToSummarize a)).1) arts
      (htmlHeader title topic), String.append_assoc]

theorem render_blocks_structure_witness :
    (([artA] : List Article) ≠ []) ∧
    create_newsletter_content oracleK "T" "ai" [artA] =
      htmlHeader "T" "ai" ++
        (blocksConcat
          (fun a => articleBlock a (summarize_article oracleK (contentToSummarize a)).1) [artA]
          ++ htmlFooter) :=
  ⟨by decide,
    render_blocks_structure oracleK "T" "ai" [artA] (by decide)⟩

/-- C7: rendering is deterministic in (title, topic, article/summary
pairs): if two summarizer oracles produce the same summary for every
article of the list, the rendered documents are byte-identical — the
output depends on nothing else (no timestamps, no random ordering). -/
theorem render_deterministic_in_pairs (o1 o2 : String → Except String String)
    (title topic : String) (arts : List Article)
    (h : ∀ a ∈ arts, (summarize_article o1 (contentToSummarize a)).1 =
      (summarize_article o2 (contentToSummarize a)).1) :
    create_newsletter_content o1 title topic arts =
      create_newsletter_content o2 title topic arts := by
  unfold create_newsletter_content
  split
  · rfl
  · rw [foldl_append_blocks
        (fun a => articleBlock a (summarize_article o1 (contentToSummarize a)).1) arts
        (htmlHeader title topic),
      foldl_append_blocks
        (fun a => articleBlock a (summarize_article o2 (contentToSummarize a)).1) arts
        (htmlHeader title topic),
      blocksConcat_congr _ _ arts (fun a ha => by rw [h a ha])]

theorem render_deterministic_in_pairs_witness :
    (∀ a ∈ ([artA] : List Article),
      (summarize_article oracleK (contentToSummarize a)).1 =
      (summarize_article (fun p => if p = "" then .error "x" else .ok "S")
        (contentToSummarize a)).1) ∧
    create_newsletter_content oracleK "T" "ai" [artA] =
      create_newsletter_content (fun p => if p = "" then .error "x" else .ok "S")
        "T" "ai" [artA] :=
  ⟨fun a ha => by
      rw [List.mem_singleton] at ha
      subst ha
      rfl,
    render_deterministic_in_pairs oracleK
      (fun p => if p = "" then .error "x" else .ok "S") "T" "ai" [artA]
      (fun a ha => by
        rw [List.mem_singleton] at ha
        subst ha
        rfl)⟩

/-- C8: when email sending is requested but one of the five required
delivery fields is falsy, the run after a successful fetch produces
exactly the fetch trace, the output-file effects and the explanatory
skip message — and no SMTP session is ever opened anywhere in that
trace; generation and saving are untouched. -/
theorem email_missing_fields_skips_delivery
    (env : FetchEnv) (oracle : String → Except String String) (smtpOk : Bool)
    (args : Args) (arts : List Article) (tf : List Eff)
    (hsend : args.sendEmail = true) (hmiss : allEmailArgs args = false)
    (hfetch : fetch_articles env args.newsApiKey 3600 args.topic args.maxArticles =
      (.ok (some arts), tf))
    (hne : arts ≠ []) :
    mainRun env oracle smtpOk args =
      .ok (tf ++ outputEffs args (create_newsletter_content oracle args.title args.topic arts)
        ++ [Eff.printMsg "To send an email, you must provide all required email arguments.",
          Eff.printRuntime]) ∧
    ∀ s p, Eff.smtpOpen s p ∉
      tf ++ outputEffs args (create_newsletter_content oracle args.title args.topic arts)
        ++ [Eff.printMsg "To send an email, you must provide all required email arguments.",
          Eff.printRuntime] := by
  have hne2 : arts.isEmpty = false := by
    cases arts with
    | nil => exact absurd rfl hne
    | cons a t => rfl
  constructor
  · simp [mainRun, hfetch, hne2, emailEffs, hsend, hmiss]
  · intro s p
    have h1 := fetch_trace_no_smtp env args.newsApiKey 3600 args.topic args.maxArticles s p
    rw [hfetch] at h1
    intro hmem
    simp only [List.append_assoc, List.mem_append, List.mem_cons,
      List.not_mem_nil, or_false] at hmem
    rcases hmem with h | (h | (h | h))
    · exact h1 h
    · unfold outputEffs at h
      split at h <;> simp at h
    · cases h
    · cases h

theorem email_missing_fields_skips_delivery_witness :
    (argsEmailNoPass.sendEmail = true ∧ allEmailArgs argsEmailNoPass = false ∧
      argsEmailNoPass.smtpPassword = none ∧
      fetch_articles (envHit [artA]) argsEmailNoPass.newsApiKey 3600
        argsEmailNoPass.topic argsEmailNoPass.maxArticles =
        (.ok (some [artA]), [.printMsg "Using cached articles."]) ∧
      ([artA] : List Article) ≠ []) ∧
    mainRun (envHit [artA]) oracleK true argsEmailNoPass =
      .ok ([.printMsg "Using cached articles."]
        ++ outputEffs argsEmailNoPass
          (create_newsletter_content oracleK argsEmailNoPass.title argsEmailNoPass.topic [artA])
        ++ [Eff.printMsg "To send an email, you must provide all required email arguments.",
          Eff.printRuntime]) :=
  ⟨⟨by rfl, by rfl, by rfl, by rfl, by decide⟩,
    (email_missing_fields_skips_delivery (envHit [artA]) oracleK true argsEmailNoPass
      [artA] [.printMsg "Using cached articles."] (by rfl) (by rfl) (by rfl) (by decide)).1⟩

/-- C9 counterexample: a cache-read I/O error on a fresh entry makes
`fetch_articles` raise (the read sits outside the `try`), aborting the
whole run with no live fetch attempted; a cache-write I/O error after a
successful fetch likewise propagates (`except` catches only requests
exceptions) and aborts the run — neither degrades to a cache miss. -/
theorem cache_io_error_aborts_concrete :
    fetch_articles envRdErr "k" 3600 "ai" 5 =
      (.error "IOError", [.printMsg "Using cached articles."]) ∧
    mainRun envRdErr oracleK true argsBase = .error "IOError" ∧
    Eff.netGet (fetchUrl "k" "ai" 5) ∉ (fetch_articles envRdErr "k" 3600 "ai" 5).2 ∧
    fetch_articles envWrErr "k" 3600 "ai" 5 =
      (.error "IOError", [.netGet (fetchUrl "k" "ai" 5)]) ∧
    mainRun envWrErr oracleK true argsBase = .error "IOError" :=
  ⟨by rfl, by rfl, by decide, by rfl, by rfl⟩

/-- C9 (amended): an I/O error raised by the backing store is fatal, not
a degradation to cache miss: a read error on a fresh entry propagates
out of `fetch_articles` untouched and aborts the pipeline before any
network request, and a write error after a successful fetch also
propagates and aborts the pipeline. -/
theorem cache_io_error_propagates
    (env : FetchEnv) (oracle : String → Except String String) (smtpOk : Bool)
    (args : Args) (e : String) (resp : HttpResponse) (arts : List Article) :
    (env.cacheExists (cacheFileFor args.newsApiKey args.topic args.maxArticles) = true →
      env.now - env.cacheMtime (cacheFileFor args.newsApiKey args.topic args.maxArticles) < 3600 →
      env.cacheRead (cacheFileFor args.newsApiKey args.topic args.maxArticles) = .error e →
      fetch_articles env args.newsApiKey 3600 args.topic args.maxArticles =
        (.error e, [.printMsg "Using cached articles."]) ∧
      mainRun env oracle smtpOk args = .error e) ∧
    (¬(env.cacheExists (cacheFileFor args.newsApiKey args.topic args.maxArticles) = true ∧
        env.now - env.cacheMtime (cacheFileFor args.newsApiKey args.topic args.maxArticles) < 3600) →
      env.httpGet (fetchUrl args.newsApiKey args.topic args.maxArticles) = .ok resp →
      raiseForStatus resp = false →
      resp.json = .ok (some arts) →
      env.cacheWriteErr (cacheFileFor args.newsApiKey args.topic args.maxArticles) = some e →
      fetch_articles env args.newsApiKey 3600 args.topic args.maxArticles =
        (.error e, [.netGet (fetchUrl args.newsApiKey args.topic args.maxArticles)]) ∧
      mainRun env oracle smtpOk args = .error e) := by
  constructor
  · intro h1 h2 h3
    simp only [cacheFileFor] at h1 h2 h3
    have hfetch : fetch_articles env args.newsApiKey 3600 args.topic args.maxArticles =
        (.error e, [.printMsg "Using cached articles."]) := by
      simp [fetch_articles, h1, h2, h3]
    exact ⟨hfetch, by simp [mainRun, hfetch]⟩
  · intro hmiss hg hr hj hw
    simp only [cacheFileFor] at hmiss hw
    have hfetch : fetch_articles env args.newsApiKey 3600 args.topic args.maxArticles =
        (.error e, [.netGet (fetchUrl args.newsApiKey args.topic args.maxArticles)]) := by
      simp only [fetch_articles]
      rw [if_neg hmiss, hg]
      simp [hr, hj, hw]
    exact ⟨hfetch, by simp [mainRun, hfetch]⟩

theorem cache_io_error_propagates_witness :
    (envRdErr.cacheExists (cacheFileFor "k" "ai" 5) = true ∧
      envRdErr.now - envRdErr.cacheMtime (cacheFileFor "k" "ai" 5) < (3600 : Int) ∧
      envRdErr.cacheRead (cacheFileFor "k" "ai" 5) = .error "IOError") ∧
    mainRun envRdErr oracleK true argsBase = .error "IOError" :=
  ⟨⟨by rfl, by decide, by rfl⟩,
    ((cache_io_error_propagates envRdErr oracleK true argsBase "IOError"
      ⟨200, .ok (some [artA])⟩ [artA]).1 (by rfl) (by decide) (by rfl)).2⟩

/-- C10: when the source successfully returns an empty list, the run
caches the empty list, returns it, and the top level prints the "failed
to generate" message with no newsletter; a later run that finds that
fresh cached empty entry prints the same failure with no network call. -/
theorem empty_fetch_cached_and_fails
    (env env2 : FetchEnv) (oracle : String → Except String String) (smtpOk : Bool)
    (args : Args) (resp : HttpResponse)
    (hmiss : ¬(env.cacheExists (cacheFileFor args.newsApiKey args.topic args.maxArticles) = true ∧
      env.now - env.cacheMtime (cacheFileFor args.newsApiKey args.topic args.maxArticles) < 3600))
    (hg : env.httpGet (fetchUrl args.newsApiKey args.topic args.maxArticles) = .ok resp)
    (h2xx : 200 ≤ resp.status ∧ resp.status < 300)
    (hj : resp.json = .ok (some []))
    (hw : env.cacheWriteErr (cacheFileFor args.newsApiKey args.topic args.maxArticles) = none)
    (hex2 : env2.cacheExists (cacheFileFor args.newsApiKey args.topic args.maxArticles) = true)
    (hfr2 : env2.now - env2.cacheMtime (cacheFileFor args.newsApiKey args.topic args.maxArticles) < 3600)
    (hrd2 : env2.cacheRead (cacheFileFor args.newsApiKey args.topic args.maxArticles) = .ok []) :
    fetch_articles env args.newsApiKey 3600 args.topic args.maxArticles =
      (.ok (some []),
        [.netGet (fetchUrl args.newsApiKey args.topic args.maxArticles),
         .cacheWrite (cacheFileFor args.newsApiKey args.topic args.maxArticles) []]) ∧
    mainRun env oracle smtpOk args =
      .ok [.netGet (fetchUrl args.newsApiKey args.topic args.maxArticles),
        .cacheWrite (cacheFileFor args.newsApiKey args.topic args.maxArticles) [],
        failEff, .printRuntime] ∧
    mainRun env2 oracle smtpOk args =
      .ok [.printMsg "Using cached articles.", failEff, .printRuntime] := by
  simp only [cacheFileFor] at hmiss hw hex2 hfr2 hrd2
  have hraise : raiseForStatus resp = false := by
    have h4 : ¬(400 ≤ resp.status) := by omega
    simp [raiseForStatus, h4]
  have hfetch : fetch_articles env args.newsApiKey 3600 args.topic args.maxArticles =
      (.ok (some []),
        [.netGet (fetchUrl args.newsApiKey args.topic args.maxArticles),
         .cacheWrite (cacheFileName (fetchUrl args.newsApiKey args.topic args.maxArticles)) []]) := by
    simp only [fetch_articles]
    rw [if_neg hmiss, hg]
    simp [hraise, hj, hw]
  have hfetch2 : fetch_articles env2 args.newsApiKey 3600 args.topic args.maxArticles =
      (.ok (some []), [.printMsg "Using cached articles."]) := by
    simp [fetch_articles, hex2, hfr2, hrd2]
  refine ⟨hfetch, ?_, ?_⟩
  · simp [mainRun, hfetch, cacheFileFor]
  · simp [mainRun, hfetch2]

theorem empty_fetch_cached_and_fails_witness :
    (envMissEmpty.httpGet (fetchUrl "k" "ai" 5) = .ok ⟨200, .ok (some [])⟩ ∧
      (envHit []).cacheRead (cacheFileFor "k" "ai" 5) = .ok []) ∧
    mainRun envMissEmpty oracleK true argsBase =
      .ok [.netGet (fetchUrl "k" "ai" 5), .cacheWrite (cacheFileFor "k" "ai" 5) [],
        failEff, .printRuntime] ∧
    mainRun (envHit []) oracleK true argsBase =
      .ok [.printMsg "Using cached articles.", failEff, .printRuntime] :=
  ⟨⟨by rfl, by rfl⟩,
    ((empty_fetch_cached_and_fails envMissEmpty (envHit []) oracleK true argsBase
      ⟨200, .ok (some [])⟩ (by decide) (by rfl) (by decide) (by rfl) (by rfl)
      (by rfl) (by decide) (by rfl)).2)⟩
